import Mathlib

/-!
Verification of the registration engine of `AlgoliaSearch/registration.py`.

The engine (`AlgoliaEngine`) holds a dictionary mapping Django model classes
to adapter objects (`AlgoliaIndex` instances), and connects/disconnects its
two signal receivers to the `post_save` and `pre_delete` signals, scoped to
the registered model.

Shallow embedding choices:
* A model class is an opaque identifier (`Model := Nat`), used only as a
  dictionary key and identity check.
* A Python dictionary is an association list in insertion order
  (`List (Model × Adapter)`); `model in dict` is a key-membership test,
  `dict[model]` looks up the first (and, by dict semantics, only) entry,
  `del dict[model]` removes the entry for the key.
* Adapter objects carry an allocation identity `oid` (fresh at each
  construction, drawn from a counter threaded through the state), the
  index class `index_cls` passed to `register`, and the constructor
  arguments `model` and `client`, mirroring `index_cls(model, self.client)`.
* The Django signal subscriptions `post_save.connect(receiver, model)` /
  `pre_delete.connect(receiver, model)` are recorded as the list of sender
  models each of the engine's two receivers is connected for.
* Methods that mutate `self` return `Except err α × AlgoliaEngine`; a
  `raise` returns `.error` paired with the state at the raise point.
  Read-only methods are pure functions of the state.
* A call `adapter.update_obj_index(obj)` / `adapter.delete_obj_index(obj)`
  on an adapter (whose class lives outside this file's scope) is recorded
  as an `AdapterCall` event; methods that invoke adapters return the list
  of adapter calls they perform.
* A Python instance (`Instance`) carries its exact runtime class
  (`instance.__class__`, field `cls`), the list of proper superclasses of
  that class (field `supers`, never consulted by the engine), and an
  object identity.
-/

/-- An opaque model-class identifier (a Django model class, used only as a
dictionary key). -/
abbrev Model := Nat

/-- The error raised by the engine: `RegistrationError(msg)`, a subclass of
`AlgoliaEngineError`.  Every raise site in the source constructs a
`RegistrationError`, so the single constructor suffices. -/
inductive AlgoliaEngineError where
  | registrationError (msg : String)
deriving DecidableEq, Repr

/-- An adapter object, as constructed by `index_cls(model, self.client)` in
`register`.  `oid` is the object's allocation identity (each construction
yields a fresh object). -/
structure Adapter where
  oid : Nat
  index_cls : Nat
  model : Model
  client : Nat
deriving DecidableEq, Repr

/-- A record instance.  `cls` is `instance.__class__`, the exact runtime
class; `supers` lists the proper superclasses of that class (the engine
never reads them); `oid` is the object identity. -/
structure Instance where
  cls : Model
  supers : List Model
  oid : Nat
deriving DecidableEq, Repr

/-- The state of an `AlgoliaEngine` object: the private dictionary
`self.__registered_models`, the sender lists of the two signal
subscriptions, the client handle built in `__init__`, and the allocation
counter supplying fresh adapter identities. -/
structure AlgoliaEngine where
  registered_models : List (Model × Adapter)
  post_save_senders : List Model
  pre_delete_senders : List Model
  client : Nat
  next_oid : Nat
deriving DecidableEq, Repr

/-- `__init__`: empty registry, no subscriptions, a fresh client. -/
def AlgoliaEngine.init : AlgoliaEngine :=
  { registered_models := []
    post_save_senders := []
    pre_delete_senders := []
    client := 0
    next_oid := 0 }

/-- The message of the double-registration error. -/
def already_registered_msg (m : Model) : String :=
  s!"{m} is already registered with Algolia engine"

/-- The message of the three not-registered errors (unregister, lookup by
model, lookup by instance). -/
def not_registered_msg (m : Model) : String :=
  s!"{m} is not registered with Algolia engine"

/-- Dictionary lookup `d[m]` (as an `Option`): the entry for key `m`. -/
def dict_get (d : List (Model × Adapter)) (m : Model) : Option Adapter :=
  (d.find? (fun p => p.1 == m)).map Prod.snd

/-- `is_registered(model)`: `model in self.__registered_models`. -/
def AlgoliaEngine.is_registered (e : AlgoliaEngine) (model : Model) : Bool :=
  (dict_get e.registered_models model).isSome

/-- `is_registered` with the state threaded explicitly, as the
state-passing translation of the method body
`return model in self.__registered_models` (no statement of the body
assigns to `self`, so the state out is the state in). -/
def AlgoliaEngine.is_registered_run (e : AlgoliaEngine) (model : Model) :
    Bool × AlgoliaEngine :=
  (e.is_registered model, e)

/-- `register(model, index_cls)`: raise `RegistrationError` if already
registered; otherwise construct `index_cls(model, self.client)`, store it
under `model`, and connect both receivers for sender `model`. -/
def AlgoliaEngine.register (e : AlgoliaEngine) (model : Model)
    (index_cls : Nat) : Except AlgoliaEngineError Unit × AlgoliaEngine :=
  if e.is_registered model then
    (.error (.registrationError (already_registered_msg model)), e)
  else
    let index_obj : Adapter :=
      { oid := e.next_oid, index_cls := index_cls, model := model,
        client := e.client }
    (.ok (),
      { e with
        registered_models := e.registered_models ++ [(model, index_obj)]
        post_save_senders := e.post_save_senders ++ [model]
        pre_delete_senders := e.pre_delete_senders ++ [model]
        next_oid := e.next_oid + 1 })

/-- `unregister(model)`: raise `RegistrationError` if not registered;
otherwise delete the dictionary entry and disconnect both receivers for
sender `model`. -/
def AlgoliaEngine.unregister (e : AlgoliaEngine) (model : Model) :
    Except AlgoliaEngineError Unit × AlgoliaEngine :=
  if e.is_registered model then
    (.ok (),
      { e with
        registered_models :=
          e.registered_models.filter (fun p => ¬ p.1 == model)
        post_save_senders := e.post_save_senders.filter (fun s => ¬ s == model)
        pre_delete_senders :=
          e.pre_delete_senders.filter (fun s => ¬ s == model) })
  else
    (.error (.registrationError (not_registered_msg model)), e)

/-- `get_registered_models()`: `list(self.__registered_models.keys())`. -/
def AlgoliaEngine.get_registered_models (e : AlgoliaEngine) : List Model :=
  e.registered_models.map Prod.fst

/-- `get_adapter(model)`: return `self.__registered_models[model]` when
registered, else raise `RegistrationError`. -/
def AlgoliaEngine.get_adapter (e : AlgoliaEngine) (model : Model) :
    Except AlgoliaEngineError Adapter :=
  match dict_get e.registered_models model with
  | some a => .ok a
  | none => .error (.registrationError (not_registered_msg model))

/-- `get_adapter_from_instance(instance)`: look up by
`instance.__class__`. -/
def AlgoliaEngine.get_adapter_from_instance (e : AlgoliaEngine)
    (inst : Instance) : Except AlgoliaEngineError Adapter :=
  e.get_adapter inst.cls

/-- Which adapter operation was invoked. -/
inductive AdapterOp where
  | update
  | delete
deriving DecidableEq, Repr

/-- One call performed on an adapter: `adapter.update_obj_index(obj)` or
`adapter.delete_obj_index(obj)`. -/
structure AdapterCall where
  adapter : Adapter
  op : AdapterOp
  obj : Instance
deriving DecidableEq, Repr

/-- `update_obj_index(obj)`: resolve the adapter from the instance and call
`adapter.update_obj_index(obj)`; returns the trace of adapter calls. -/
def AlgoliaEngine.update_obj_index (e : AlgoliaEngine) (obj : Instance) :
    Except AlgoliaEngineError (List AdapterCall) :=
  match e.get_adapter_from_instance obj with
  | .ok adapter => .ok [{ adapter := adapter, op := .update, obj := obj }]
  | .error err => .error err

/-- `delete_obj_index(obj)`: resolve the adapter from the instance and call
`adapter.delete_obj_index(obj)`; returns the trace of adapter calls. -/
def AlgoliaEngine.delete_obj_index (e : AlgoliaEngine) (obj : Instance) :
    Except AlgoliaEngineError (List AdapterCall) :=
  match e.get_adapter_from_instance obj with
  | .ok adapter => .ok [{ adapter := adapter, op := .delete, obj := obj }]
  | .error err => .error err

/-- `__post_save_receiver(instance)`: forwards to `update_obj_index`. -/
def AlgoliaEngine.post_save_receiver (e : AlgoliaEngine)
    (inst : Instance) : Except AlgoliaEngineError (List AdapterCall) :=
  e.update_obj_index inst

/-- `__pre_delete_receiver(instance)`: forwards to `delete_obj_index`. -/
def AlgoliaEngine.pre_delete_receiver (e : AlgoliaEngine)
    (inst : Instance) : Except AlgoliaEngineError (List AdapterCall) :=
  e.delete_obj_index inst

/-- The registry invariant: each model class keys at most one entry of the
dictionary (Python dict key uniqueness). -/
def AlgoliaEngine.WF (e : AlgoliaEngine) : Prop :=
  (e.registered_models.map Prod.fst).Nodup

/-! ## Helper lemmas -/

theorem is_registered_iff_mem_keys (e : AlgoliaEngine) (m : Model) :
    e.is_registered m = true ↔ m ∈ e.registered_models.map Prod.fst := by
  simp only [AlgoliaEngine.is_registered, dict_get, Option.isSome_map',
    List.find?_isSome, List.mem_map, beq_iff_eq]

theorem get_adapter_error_of_not_registered (e : AlgoliaEngine) (m : Model)
    (h : e.is_registered m = false) :
    e.get_adapter m = .error (.registrationError (not_registered_msg m)) := by
  have hd : dict_get e.registered_models m = none := by
    have := h
    simp only [AlgoliaEngine.is_registered] at this
    exact Option.not_isSome_iff_eq_none.1 (by simp [this])
  simp [AlgoliaEngine.get_adapter, hd]

theorem get_adapter_ok_iff (e : AlgoliaEngine) (m : Model) (a : Adapter) :
    e.get_adapter m = .ok a ↔ dict_get e.registered_models m = some a := by
  unfold AlgoliaEngine.get_adapter
  cases hd : dict_get e.registered_models m <;> simp

theorem update_obj_index_ok (e : AlgoliaEngine) (obj : Instance) (a : Adapter)
    (h : e.get_adapter obj.cls = .ok a) :
    e.update_obj_index obj =
      .ok [{ adapter := a, op := .update, obj := obj }] := by
  simp [AlgoliaEngine.update_obj_index, AlgoliaEngine.get_adapter_from_instance, h]

theorem delete_obj_index_ok (e : AlgoliaEngine) (obj : Instance) (a : Adapter)
    (h : e.get_adapter obj.cls = .ok a) :
    e.delete_obj_index obj =
      .ok [{ adapter := a, op := .delete, obj := obj }] := by
  simp [AlgoliaEngine.delete_obj_index, AlgoliaEngine.get_adapter_from_instance, h]

theorem update_obj_index_error (e : AlgoliaEngine) (obj : Instance)
    (h : e.is_registered obj.cls = false) :
    e.update_obj_index obj =
      .error (.registrationError (not_registered_msg obj.cls)) := by
  simp [AlgoliaEngine.update_obj_index, AlgoliaEngine.get_adapter_from_instance,
    get_adapter_error_of_not_registered e obj.cls h]

theorem delete_obj_index_error (e : AlgoliaEngine) (obj : Instance)
    (h : e.is_registered obj.cls = false) :
    e.delete_obj_index obj =
      .error (.registrationError (not_registered_msg obj.cls)) := by
  simp [AlgoliaEngine.delete_obj_index, AlgoliaEngine.get_adapter_from_instance,
    get_adapter_error_of_not_registered e obj.cls h]

instance (e : AlgoliaEngine) : Decidable e.WF :=
  inferInstanceAs (Decidable ((e.registered_models.map Prod.fst).Nodup))

/-! ## Claims -/

/-- C2: if model `m` is already registered, a second `register(m, c)` raises
`RegistrationError` and leaves the registry state (mapping, subscriptions,
allocation counter) unchanged; `m` still maps to exactly the one adapter
from the first successful registration. -/
theorem C2_register_duplicate (e : AlgoliaEngine) (m : Model) (c : Nat)
    (hwf : e.WF) (h : e.is_registered m = true) :
    e.register m c =
      (.error (.registrationError (already_registered_msg m)), e) ∧
    (e.registered_models.filter (fun p => p.1 == m)).length = 1 := by
  refine ⟨by simp [AlgoliaEngine.register, h], ?_⟩
  have hm : m ∈ e.registered_models.map Prod.fst :=
    (is_registered_iff_mem_keys e m).1 h
  have hcount : (e.registered_models.map Prod.fst).count m = 1 :=
    List.nodup_iff_count_eq_one.1 hwf m hm
  rw [← List.countP_eq_length_filter]
  calc e.registered_models.countP (fun p => p.1 == m)
      = (e.registered_models.map Prod.fst).countP (fun k => k == m) := by
        rw [List.countP_map]; rfl
    _ = (e.registered_models.map Prod.fst).count m :=
        (List.count_eq_countP _ _).symm
    _ = 1 := hcount

/-- Witness for C2 at a concrete state: register model 0 once, then a second
registration fails and the single adapter entry survives. -/
theorem C2_register_duplicate_witness :
    (AlgoliaEngine.init.register 0 3).2.register 0 4 =
      (.error (.registrationError (already_registered_msg 0)),
        (AlgoliaEngine.init.register 0 3).2) ∧
    (((AlgoliaEngine.init.register 0 3).2.registered_models.filter
      (fun p => p.1 == 0)).length = 1) :=
  C2_register_duplicate (AlgoliaEngine.init.register 0 3).2 0 4
    (by decide) (by decide)

/-- C3: if model `m` is not registered, `unregister(m)` raises
`RegistrationError` and leaves the registry state unchanged. -/
theorem C3_unregister_unknown (e : AlgoliaEngine) (m : Model)
    (h : e.is_registered m = false) :
    e.unregister m =
      (.error (.registrationError (not_registered_msg m)), e) := by
  simp [AlgoliaEngine.unregister, h]

/-- Witness for C3: unregistering a never-registered model on the empty
registry fails and leaves the registry empty. -/
theorem C3_unregister_unknown_witness :
    AlgoliaEngine.init.is_registered 0 = false ∧
    AlgoliaEngine.init.unregister 0 =
      (.error (.registrationError (not_registered_msg 0)),
        AlgoliaEngine.init) ∧
    (AlgoliaEngine.init.unregister 0).2.registered_models = [] :=
  ⟨by decide, C3_unregister_unknown AlgoliaEngine.init 0 (by decide),
    by decide⟩

/-- C4: `is_registered(m)` is false before a (successful) `register(m, c)`,
true afterwards, and false again after a subsequent `unregister(m)` (which
always succeeds from that state). -/
theorem C4_is_registered_lifecycle (e : AlgoliaEngine) (m : Model) (c : Nat)
    (e1 : AlgoliaEngine) (h : e.register m c = (.ok (), e1)) :
    e.is_registered m = false ∧ e1.is_registered m = true ∧
    ∀ r e2, e1.unregister m = (r, e2) →
      r = .ok () ∧ e2.is_registered m = false := by
  by_cases hr : e.is_registered m
  · simp [AlgoliaEngine.register, hr] at h
  · have hb : e.is_registered m = false := by simpa using hr
    have he1 : e1 = (e.register m c).2 := by rw [h]
    have h1 : e1.is_registered m = true := by
      rw [he1]
      simp only [AlgoliaEngine.register, hb]
      rw [is_registered_iff_mem_keys]
      simp
    refine ⟨hb, h1, ?_⟩
    intro r e2 hu
    rw [AlgoliaEngine.unregister, if_pos h1] at hu
    simp only [Prod.mk.injEq] at hu
    obtain ⟨hr2, he2s⟩ := hu
    have he2 : e2.registered_models =
        e1.registered_models.filter (fun p => ¬ p.1 == m) := by
      rw [← he2s]
    refine ⟨hr2.symm, ?_⟩
    by_contra hc
    have : e2.is_registered m = true := by simpa using hc
    have hmem := (is_registered_iff_mem_keys e2 m).1 this
    rw [he2] at hmem
    rcases List.mem_map.1 hmem with ⟨p, hp, hpm⟩
    rcases List.mem_filter.1 hp with ⟨_, hne⟩
    simp [hpm] at hne

/-- Witness for C4 on a concrete run: register model 5 on the fresh engine,
observe the three membership answers. -/
theorem C4_is_registered_lifecycle_witness :
    AlgoliaEngine.init.is_registered 5 = false ∧
    (AlgoliaEngine.init.register 5 3).2.is_registered 5 = true ∧
    ∀ r e2, (AlgoliaEngine.init.register 5 3).2.unregister 5 = (r, e2) →
      r = .ok () ∧ e2.is_registered 5 = false :=
  C4_is_registered_lifecycle AlgoliaEngine.init 5 3
    (AlgoliaEngine.init.register 5 3).2 rfl

/-- C6: for an instance `x` of a registered class,
`get_adapter_from_instance(x)` returns the same adapter object as
`get_adapter(x.__class__)`. -/
theorem C6_get_adapter_from_instance_agrees (e : AlgoliaEngine)
    (x : Instance) (h : e.is_registered x.cls = true) :
    ∃ a, e.get_adapter_from_instance x = .ok a ∧
      e.get_adapter x.cls = .ok a := by
  rcases Option.isSome_iff_exists.1 h with ⟨a, ha⟩
  exact ⟨a,
    by simp [AlgoliaEngine.get_adapter_from_instance,
      AlgoliaEngine.get_adapter, ha],
    by simp [AlgoliaEngine.get_adapter, ha]⟩

/-- Witness for C6 at a concrete state and instance. -/
theorem C6_get_adapter_from_instance_agrees_witness :
    ∃ a, (AlgoliaEngine.init.register 2 3).2.get_adapter_from_instance
        { cls := 2, supers := [], oid := 9 } = .ok a ∧
      (AlgoliaEngine.init.register 2 3).2.get_adapter 2 = .ok a :=
  C6_get_adapter_from_instance_agrees (AlgoliaEngine.init.register 2 3).2
    { cls := 2, supers := [], oid := 9 } (by decide)

/-- C9: `is_registered` is a pure membership test: the state-passing
translation returns the engine state unchanged, and its boolean answer is
exactly membership of the model in the registry mapping. -/
theorem C9_is_registered_pure (e : AlgoliaEngine) (m : Model) :
    (e.is_registered_run m).2 = e ∧
    ((e.is_registered_run m).1 = true ↔
      ∃ a, (m, a) ∈ e.registered_models) := by
  refine ⟨rfl, ?_⟩
  show e.is_registered m = true ↔ _
  rw [is_registered_iff_mem_keys]
  constructor
  · intro hm
    rcases List.mem_map.1 hm with ⟨p, hp, rfl⟩
    exact ⟨p.2, hp⟩
  · rintro ⟨a, ha⟩
    exact List.mem_map.2 ⟨(m, a), ha, rfl⟩

/-- C1: invoking the saved-handler on an instance of a registered class
performs exactly one `update` call on that class's adapter with that
instance; the before-deleted-handler performs exactly one `delete` call;
on an instance of an unregistered class either handler raises
`RegistrationError`. -/
theorem C1_receiver_dispatch (e : AlgoliaEngine) (x : Instance) :
    (∀ a, e.get_adapter x.cls = .ok a →
      e.post_save_receiver x =
        .ok [{ adapter := a, op := .update, obj := x }] ∧
      e.pre_delete_receiver x =
        .ok [{ adapter := a, op := .delete, obj := x }]) ∧
    (e.is_registered x.cls = false →
      e.post_save_receiver x =
        .error (.registrationError (not_registered_msg x.cls)) ∧
      e.pre_delete_receiver x =
        .error (.registrationError (not_registered_msg x.cls))) := by
  constructor
  · intro a ha
    exact ⟨update_obj_index_ok e x a ha, delete_obj_index_ok e x a ha⟩
  · intro h
    exact ⟨update_obj_index_error e x h, delete_obj_index_error e x h⟩

/-- Witness for C1: with model 1 registered, the handlers perform the single
adapter call for an instance of class 1 and raise for one of class 3. -/
theorem C1_receiver_dispatch_witness :
    (AlgoliaEngine.init.register 1 2).2.post_save_receiver
        { cls := 1, supers := [], oid := 4 } =
      .ok [{ adapter := { oid := 0, index_cls := 2, model := 1, client := 0 },
             op := .update, obj := { cls := 1, supers := [], oid := 4 } }] ∧
    (AlgoliaEngine.init.register 1 2).2.pre_delete_receiver
        { cls := 1, supers := [], oid := 4 } =
      .ok [{ adapter := { oid := 0, index_cls := 2, model := 1, client := 0 },
             op := .delete, obj := { cls := 1, supers := [], oid := 4 } }] ∧
    (AlgoliaEngine.init.register 1 2).2.post_save_receiver
        { cls := 3, supers := [], oid := 5 } =
      .error (.registrationError (not_registered_msg 3)) ∧
    (AlgoliaEngine.init.register 1 2).2.pre_delete_receiver
        { cls := 3, supers := [], oid := 5 } =
      .error (.registrationError (not_registered_msg 3)) :=
  ⟨((C1_receiver_dispatch (AlgoliaEngine.init.register 1 2).2
      { cls := 1, supers := [], oid := 4 }).1
      { oid := 0, index_cls := 2, model := 1, client := 0 } rfl).1,
   ((C1_receiver_dispatch (AlgoliaEngine.init.register 1 2).2
      { cls := 1, supers := [], oid := 4 }).1
      { oid := 0, index_cls := 2, model := 1, client := 0 } rfl).2,
   ((C1_receiver_dispatch (AlgoliaEngine.init.register 1 2).2
      { cls := 3, supers := [], oid := 5 }).2 (by decide)).1,
   ((C1_receiver_dispatch (AlgoliaEngine.init.register 1 2).2
      { cls := 3, supers := [], oid := 5 }).2 (by decide)).2⟩

/-- C5: `update_obj_index(obj)` / `delete_obj_index(obj)` resolve the
adapter registered for `obj.__class__` and forward `obj` to it (one call);
when that class is unregistered both raise `RegistrationError` (the error
propagated from `get_adapter_from_instance`) and perform no adapter
call. -/
theorem C5_obj_index_dispatch (e : AlgoliaEngine) (obj : Instance) :
    (∀ a, e.get_adapter obj.cls = .ok a →
      e.update_obj_index obj =
        .ok [{ adapter := a, op := .update, obj := obj }] ∧
      e.delete_obj_index obj =
        .ok [{ adapter := a, op := .delete, obj := obj }]) ∧
    (e.is_registered obj.cls = false →
      e.update_obj_index obj =
        .error (.registrationError (not_registered_msg obj.cls)) ∧
      e.delete_obj_index obj =
        .error (.registrationError (not_registered_msg obj.cls))) := by
  constructor
  · intro a ha
    exact ⟨update_obj_index_ok e obj a ha, delete_obj_index_ok e obj a ha⟩
  · intro h
    exact ⟨update_obj_index_error e obj h, delete_obj_index_error e obj h⟩

/-- Witness for C5: with model 4 registered, the two operations forward an
instance of class 4 to the stored adapter and raise for class 9. -/
theorem C5_obj_index_dispatch_witness :
    (AlgoliaEngine.init.register 4 6).2.update_obj_index
        { cls := 4, supers := [], oid := 8 } =
      .ok [{ adapter := { oid := 0, index_cls := 6, model := 4, client := 0 },
             op := .update, obj := { cls := 4, supers := [], oid := 8 } }] ∧
    (AlgoliaEngine.init.register 4 6).2.delete_obj_index
        { cls := 4, supers := [], oid := 8 } =
      .ok [{ adapter := { oid := 0, index_cls := 6, model := 4, client := 0 },
             op := .delete, obj := { cls := 4, supers := [], oid := 8 } }] ∧
    (AlgoliaEngine.init.register 4 6).2.update_obj_index
        { cls := 9, supers := [], oid := 8 } =
      .error (.registrationError (not_registered_msg 9)) ∧
    (AlgoliaEngine.init.register 4 6).2.delete_obj_index
        { cls := 9, supers := [], oid := 8 } =
      .error (.registrationError (not_registered_msg 9)) :=
  ⟨((C5_obj_index_dispatch (AlgoliaEngine.init.register 4 6).2
      { cls := 4, supers := [], oid := 8 }).1
      { oid := 0, index_cls := 6, model := 4, client := 0 } rfl).1,
   ((C5_obj_index_dispatch (AlgoliaEngine.init.register 4 6).2
      { cls := 4, supers := [], oid := 8 }).1
      { oid := 0, index_cls := 6, model := 4, client := 0 } rfl).2,
   ((C5_obj_index_dispatch (AlgoliaEngine.init.register 4 6).2
      { cls := 9, supers := [], oid := 8 }).2 (by decide)).1,
   ((C5_obj_index_dispatch (AlgoliaEngine.init.register 4 6).2
      { cls := 9, supers := [], oid := 8 }).2 (by decide)).2⟩

/-- C7: `get_registered_models()` returns exactly the currently registered
model classes (membership coincides with `is_registered`); in particular,
after registering models 10 and 11 and unregistering 10 it returns exactly
`[11]`. -/
theorem C7_get_registered_models_spec :
    (∀ (e : AlgoliaEngine) (m : Model),
      m ∈ e.get_registered_models ↔ e.is_registered m = true) ∧
    ((((AlgoliaEngine.init.register 10 1).2.register 11 1).2.unregister
      10).2.get_registered_models = [11]) := by
  constructor
  · intro e m
    rw [is_registered_iff_mem_keys]
    exact Iff.rfl
  · decide

/-- C8: the registry keys each model class at most once; the invariant
holds initially and is preserved by `register` and `unregister` (also on
their error paths), and the read-only operations do not change the
state. -/
theorem C8_registry_invariant :
    AlgoliaEngine.init.WF ∧
    (∀ (e : AlgoliaEngine) (m : Model) (c : Nat) r e2,
      e.WF → e.register m c = (r, e2) → e2.WF) ∧
    (∀ (e : AlgoliaEngine) (m : Model) r e2,
      e.WF → e.unregister m = (r, e2) → e2.WF) ∧
    (∀ (e : AlgoliaEngine) (m : Model), (e.is_registered_run m).2 = e) := by
  refine ⟨by decide, ?_, ?_, fun e m => rfl⟩
  · intro e m c r e2 hwf h
    by_cases hr : e.is_registered m
    · rw [AlgoliaEngine.register, if_pos hr] at h
      simp only [Prod.mk.injEq] at h
      rw [← h.2]
      exact hwf
    · have hb : e.is_registered m = false := by simpa using hr
      rw [AlgoliaEngine.register, if_neg hr] at h
      simp only [Prod.mk.injEq] at h
      rw [← h.2]
      show ((e.registered_models ++ [_]).map Prod.fst).Nodup
      rw [List.map_append]
      rw [List.nodup_append]
      refine ⟨hwf, by simp, ?_⟩
      intro k hk
      simp only [List.map_cons, List.map_nil, List.mem_singleton]
      intro hkm
      rw [hkm] at hk
      exact hr ((is_registered_iff_mem_keys e m).2 hk)
  · intro e m r e2 hwf h
    by_cases hr : e.is_registered m
    · rw [AlgoliaEngine.unregister, if_pos hr] at h
      simp only [Prod.mk.injEq] at h
      rw [← h.2]
      show ((e.registered_models.filter _).map Prod.fst).Nodup
      exact List.Nodup.sublist
        (List.Sublist.map Prod.fst (List.filter_sublist _)) hwf
    · rw [AlgoliaEngine.unregister, if_neg hr] at h
      simp only [Prod.mk.injEq] at h
      rw [← h.2]
      exact hwf

/-- Witness for C8: the invariant holds after registering model 7 and after
unregistering it again, and `is_registered` leaves a concrete state
untouched. -/
theorem C8_registry_invariant_witness :
    (AlgoliaEngine.init.register 7 1).2.WF ∧
    ((AlgoliaEngine.init.register 7 1).2.unregister 7).2.WF ∧
    (AlgoliaEngine.init.is_registered_run 7).2 = AlgoliaEngine.init :=
  ⟨C8_registry_invariant.2.1 AlgoliaEngine.init 7 1 _ _ (by decide) rfl,
   C8_registry_invariant.2.2.1 (AlgoliaEngine.init.register 7 1).2 7 _ _
     (by decide) rfl,
   C8_registry_invariant.2.2.2 AlgoliaEngine.init 7⟩

/-- C10: adapter resolution keys on the instance's exact runtime class
only: when `x.__class__` itself is unregistered, `get_adapter_from_instance`
(and hence `update_obj_index` and `delete_obj_index`) raises
`RegistrationError` even when a superclass of `x.__class__` is registered —
no superclass fallback. -/
theorem C10_exact_class_resolution (e : AlgoliaEngine) (x : Instance)
    (s : Model) (_hs : s ∈ x.supers) (_hreg : e.is_registered s = true)
    (hx : e.is_registered x.cls = false) :
    e.get_adapter_from_instance x =
      .error (.registrationError (not_registered_msg x.cls)) ∧
    e.update_obj_index x =
      .error (.registrationError (not_registered_msg x.cls)) ∧
    e.delete_obj_index x =
      .error (.registrationError (not_registered_msg x.cls)) :=
  ⟨get_adapter_error_of_not_registered e x.cls hx,
   update_obj_index_error e x hx,
   delete_obj_index_error e x hx⟩

/-- Witness for C10: model 1 is registered, the instance's class 2 has
superclass 1, and all three lookups still raise. -/
theorem C10_exact_class_resolution_witness :
    (AlgoliaEngine.init.register 1 5).2.get_adapter_from_instance
        { cls := 2, supers := [1], oid := 3 } =
      .error (.registrationError (not_registered_msg 2)) ∧
    (AlgoliaEngine.init.register 1 5).2.update_obj_index
        { cls := 2, supers := [1], oid := 3 } =
      .error (.registrationError (not_registered_msg 2)) ∧
    (AlgoliaEngine.init.register 1 5).2.delete_obj_index
        { cls := 2, supers := [1], oid := 3 } =
      .error (.registrationError (not_registered_msg 2)) :=
  C10_exact_class_resolution (AlgoliaEngine.init.register 1 5).2
    { cls := 2, supers := [1], oid := 3 } 1
    (by decide) (by decide) (by decide)
